import Mathlib

/-!
Shallow embedding of the retry / fallback / accounting layer of the
x402-sample-bot scripts.

The scripts call `paidFetch` (src/index.ts) through two retry wrappers:
`safePaidFetch` (meteora-yield scripts) and `tryWithRetry`
(smart-money-opportunities script).  Both are loops
`for (attempt = 0; attempt <= retries; attempt++)`.  We embed the loop by
structural recursion on `k`, the number of loop iterations still permitted
(`k = retries + 1 - attempt`); `k = 0` is the loop-exit point, i.e. the code
textually after the loop (`throw new Error("unreachable")` respectively
`return null`).  The condition `attempt < retries` of the source becomes
`0 < k` (one more iteration would still be allowed).

Network effects are modelled by an oracle `Nat → Except String CallResult`
giving the outcome of the `attempt`-th underlying `paidFetch` call, and by an
event trace recording, in order, every underlying call and every sleep with
its duration in milliseconds.
-/

namespace X402

/-- `substrAux pat s` is true iff `pat` occurs as a contiguous sublist of `s`. -/
def substrAux (pat : List Char) : List Char → Bool
  | [] => pat.isEmpty
  | c :: rest => pat.isPrefixOf (c :: rest) || substrAux pat rest

/-- Models JavaScript `s.includes(pat)`: substring containment. -/
def includes (s pat : String) : Bool := substrAux pat.data s.data

/-- Transient-failure classification of `safePaidFetch`
(`msg.includes("504") || msg.includes("500") || msg.includes("503") ||
msg.includes("429") || msg.includes("Too Many Requests")`). -/
def isRetryable (msg : String) : Bool :=
  includes msg "504" || includes msg "500" || includes msg "503" ||
    includes msg "429" || includes msg "Too Many Requests"

/-- Transient-failure classification of `tryWithRetry`
(`msg.includes("504") || msg.includes("timeout") || msg.includes("503")`). -/
def isTimeout (msg : String) : Bool :=
  includes msg "504" || includes msg "timeout" || includes msg "503"

/-- The value produced by one successful `paidFetch`:
`{ data, settlement, price }`.  Data and settlement payloads are opaque. -/
structure CallResult (α σ : Type) where
  data : α
  settlement : σ
  price : ℚ
deriving DecidableEq

/-- Outcome of the `attempt`-th underlying `paidFetch` call: success value or
the message of the thrown error. -/
abbrev Oracle (α σ : Type) := Nat → Except String (CallResult α σ)

/-- Observable events of a wrapper execution: an underlying `paidFetch` call
(with its attempt index) or a sleep (with its duration in ms). -/
inductive Ev where
  | call (attempt : Nat)
  | sleep (ms : Nat)
deriving DecidableEq

/-- Errors escaping `safePaidFetch`: a rethrown underlying error, or the
`throw new Error("unreachable")` placed after its loop. -/
inductive FetchErr where
  | thrown (msg : String)
  | unreachable
deriving DecidableEq

/-- Result of running a wrapper: its return/throw outcome plus the ordered
trace of underlying calls and sleeps. -/
structure Outcome (ε ρ : Type) where
  result : Except ε ρ
  trace : List Ev

/-- The loop body of `safePaidFetch`, at loop variable `attempt` with `k`
iterations still permitted (`k = retries + 1 - attempt` at reachable states).
On a caught error that is retryable while `attempt < retries` it sleeps
`(attempt + 1) * 5000` ms and continues; otherwise it rethrows. -/
def safePaidFetchGo (oracle : Oracle α σ) : Nat → Nat → Outcome FetchErr (α × ℚ)
  | _, 0 => ⟨.error .unreachable, []⟩
  | attempt, k + 1 =>
    match oracle attempt with
    | .ok r => ⟨.ok (r.data, r.price), [.call attempt]⟩
    | .error msg =>
      if 0 < k ∧ isRetryable msg = true then
        let rest := safePaidFetchGo oracle (attempt + 1) k
        ⟨rest.result, .call attempt :: .sleep ((attempt + 1) * 5000) :: rest.trace⟩
      else
        ⟨.error (.thrown msg), [.call attempt]⟩

/-- `safePaidFetch` of the meteora-yield scripts: the loop entered at
`attempt = 0` with `retries + 1` permitted iterations. -/
def safePaidFetch (oracle : Oracle α σ) (retries : Nat) : Outcome FetchErr (α × ℚ) :=
  safePaidFetchGo oracle 0 (retries + 1)

/-- The loop body of `tryWithRetry`.  Each iteration with `attempt > 0` first
sleeps 3000 ms.  On a caught error: if classified timeout and `attempt <
retries` it continues; if classified timeout with no attempts left it returns
`null` (`.ok none`); otherwise it rethrows.  Loop exit returns `null`. -/
def tryWithRetryGo (oracle : Oracle α σ) : Nat → Nat → Outcome String (Option (CallResult α σ))
  | _, 0 => ⟨.ok none, []⟩
  | attempt, k + 1 =>
    let pre : List Ev := if 0 < attempt then [.sleep 3000] else []
    match oracle attempt with
    | .ok r => ⟨.ok (some r), pre ++ [.call attempt]⟩
    | .error msg =>
      if isTimeout msg = true ∧ 0 < k then
        let rest := tryWithRetryGo oracle (attempt + 1) k
        ⟨rest.result, pre ++ .call attempt :: rest.trace⟩
      else if isTimeout msg then
        ⟨.ok none, pre ++ [.call attempt]⟩
      else
        ⟨.error msg, pre ++ [.call attempt]⟩

/-- `tryWithRetry` of the smart-money-opportunities script. -/
def tryWithRetry (oracle : Oracle α σ) (retries : Nat) :
    Outcome String (Option (CallResult α σ)) :=
  tryWithRetryGo oracle 0 (retries + 1)

/-- An HTTP response as far as `paidFetch` inspects it. -/
structure HttpResp where
  status : Nat
  body : String

/-- `paidFetch` (src/index.ts): throws `Expected 402, got <status>` when the
initial response is not 402; throws `Payment failed (<status>): <body
excerpt>` when the paid resend is not 200; otherwise returns the data,
settlement and price (`rawAmount / 1e6` USDC). -/
def paidFetch (initial paid : HttpResp) (rawAmount : Nat) (dataField : α) (settle : σ) :
    Except String (CallResult α σ) :=
  if initial.status ≠ 402 then
    .error ("Expected 402, got " ++ toString initial.status)
  else if paid.status ≠ 200 then
    .error ("Payment failed (" ++ toString paid.status ++ "): " ++ paid.body.take 500)
  else
    .ok ⟨dataField, settle, (rawAmount : ℚ) / 1000000⟩

/-- Module-level mutable accounting of the meteora-yield scripts:
`totalCost` and `callCount`. -/
structure RunState where
  totalCost : ℚ
  callCount : Nat
deriving DecidableEq

/-- Result of one `call(label, path, opts)` invocation: the returned data or
the escaping error, the accounting state afterwards, and the event trace. -/
structure CallStep (α : Type) where
  result : Except FetchErr α
  state : RunState
  trace : List Ev

/-- `call` of the meteora-yield scripts: sleeps `CALL_DELAY_MS = 5000` when
`callCount > 0`, increments `callCount`, runs `safePaidFetch` with its
default `retries = 3`, and adds the price to `totalCost` only after a
successful fetch. -/
def call (st : RunState) (oracle : Oracle α σ) : CallStep α :=
  let throttle : List Ev := if 0 < st.callCount then [Ev.sleep 5000] else []
  let st1 : RunState := ⟨st.totalCost, st.callCount + 1⟩
  let o := safePaidFetch oracle 3
  match o.result with
  | .ok dp => ⟨.ok dp.1, ⟨st1.totalCost + dp.2, st1.callCount⟩, throttle ++ o.trace⟩
  | .error e => ⟨.error e, st1, throttle ++ o.trace⟩

/-- Result of `run()` of the smart-money-opportunities script: the overall
outcome, which endpoint's result was used (0 = primary, 1 = fallback), and
the trace with each event tagged by the plan entry that produced it. -/
structure RunOutcome (α σ : Type) where
  result : Except String (Option (CallResult α σ))
  endpointUsed : Nat
  trace : List (Nat × Ev)

/-- Tag every event of a trace with the plan-entry index that produced it. -/
def tagTrace (tag : Nat) (tr : List Ev) : List (Nat × Ev) := tr.map (fun e => (tag, e))

/-- `run()` of the smart-money-opportunities script: try the primary endpoint
with 1 retry; on the `null` sentinel fall back to the second endpoint with 1
retry; a thrown error propagates.  `oracleP` and `oracleF` give the outcomes
of the underlying calls against the primary and fallback endpoints. -/
def run (oracleP oracleF : Oracle α σ) : RunOutcome α σ :=
  let r1 := tryWithRetry oracleP 1
  match r1.result with
  | .ok (some v) => ⟨.ok (some v), 0, tagTrace 0 r1.trace⟩
  | .ok none =>
    let r2 := tryWithRetry oracleF 1
    ⟨r2.result, 1, tagTrace 0 r1.trace ++ tagTrace 1 r2.trace⟩
  | .error m => ⟨.error m, 0, tagTrace 0 r1.trace⟩

/-- A branch of the `Promise.all` joins wrapped in `.catch(() => null)`:
an error is replaced by `null`, a success kept. -/
def catchToNull (r : Except String β) : Option β :=
  match r with
  | .ok v => some v
  | .error _ => none

/-- The bounded two-branch join of the hyperliquid scripts:
`Promise.all([paidFetch(...).catch(() => null), paidFetch(...).catch(() => null)])`. -/
def mainJoin (whalesResult : Except String β) (signalsResult : Except String γ) :
    Option β × Option γ :=
  (catchToNull whalesResult, catchToNull signalsResult)

/-- Is the event an underlying `paidFetch` call? -/
def isCallEv : Ev → Bool
  | .call _ => true
  | .sleep _ => false

/-- Number of underlying `paidFetch` calls recorded in a trace. -/
def countCalls (tr : List Ev) : Nat := tr.countP isCallEv

/-- The trace `safePaidFetch` produces from loop variable `attempt` when
every attempt fails transiently and `k` retries remain: call, linear-backoff
sleep, call, ... ending in a final call. -/
def linearFailTrace : Nat → Nat → List Ev
  | attempt, 0 => [.call attempt]
  | attempt, k + 1 =>
    .call attempt :: .sleep ((attempt + 1) * 5000) :: linearFailTrace (attempt + 1) k

/-- The corresponding all-transient trace of `tryWithRetry` with its fixed
3000 ms backoff (the pre-sleep of iteration `attempt`, if any, excluded). -/
def fixedFailTrace : Nat → Nat → List Ev
  | attempt, 0 => [.call attempt]
  | attempt, k + 1 => .call attempt :: .sleep 3000 :: fixedFailTrace (attempt + 1) k

/-- The transient signals the spec lists for the `safePaidFetch` sites. -/
def specSafeSignals : List String := ["504", "500", "503", "429", "Too Many Requests"]

/-- The transient signals actually matched at the `tryWithRetry` site. -/
def specTrySignals : List String := ["504", "timeout", "503"]

/-- A message matches a signal list iff it contains one of them. -/
def matchesAny (signals : List String) (msg : String) : Bool :=
  signals.any (fun p => includes msg p)

/-- Does `safePaidFetch` end in the dead `throw new Error("unreachable")`? -/
def isUnreachableErr : Except FetchErr ρ → Bool
  | .error .unreachable => true
  | _ => false

theorem safeGo_nonretryable (oracle : Oracle α σ) (attempt k : Nat) (msg : String)
    (ho : oracle attempt = .error msg) (hr : isRetryable msg = false) :
    safePaidFetchGo oracle attempt (k + 1) = ⟨.error (.thrown msg), [.call attempt]⟩ := by
  simp [safePaidFetchGo, ho, hr]

theorem tryGo_nontimeout (oracle : Oracle α σ) (attempt k : Nat) (msg : String)
    (ho : oracle attempt = .error msg) (ht : isTimeout msg = false) :
    tryWithRetryGo oracle attempt (k + 1) =
      ⟨.error msg, (if 0 < attempt then [Ev.sleep 3000] else []) ++ [.call attempt]⟩ := by
  simp [tryWithRetryGo, ho, ht]

theorem safeGo_retryStep (oracle : Oracle α σ) (attempt k : Nat) (msg : String)
    (ho : oracle attempt = .error msg) (hr : isRetryable msg = true) :
    safePaidFetchGo oracle attempt (k + 2) =
      ⟨(safePaidFetchGo oracle (attempt + 1) (k + 1)).result,
       .call attempt :: .sleep ((attempt + 1) * 5000) ::
         (safePaidFetchGo oracle (attempt + 1) (k + 1)).trace⟩ := by
  simp [safePaidFetchGo, ho, hr]

theorem tryGo_retryStep (oracle : Oracle α σ) (attempt k : Nat) (msg : String)
    (ho : oracle attempt = .error msg) (ht : isTimeout msg = true) :
    tryWithRetryGo oracle attempt (k + 2) =
      ⟨(tryWithRetryGo oracle (attempt + 1) (k + 1)).result,
       (if 0 < attempt then [Ev.sleep 3000] else []) ++
         .call attempt :: (tryWithRetryGo oracle (attempt + 1) (k + 1)).trace⟩ := by
  simp [tryWithRetryGo, ho, ht]

theorem safeGo_allFail (oracle : Oracle α σ) (msg : Nat → String)
    (ho : ∀ i, oracle i = .error (msg i)) (hr : ∀ i, isRetryable (msg i) = true) :
    ∀ k attempt, safePaidFetchGo oracle attempt (k + 1) =
      ⟨.error (.thrown (msg (attempt + k))), linearFailTrace attempt k⟩ := by
  intro k
  induction k with
  | zero =>
    intro attempt
    simp [safePaidFetchGo, ho attempt, hr attempt, linearFailTrace]
  | succ k ih =>
    intro attempt
    have step := safeGo_retryStep oracle attempt k (msg attempt) (ho attempt) (hr attempt)
    rw [step, ih (attempt + 1)]
    have hk : attempt + 1 + k = attempt + (k + 1) := by omega
    simp [linearFailTrace, hk]

theorem tryGo_allFail (oracle : Oracle α σ) (msg : Nat → String)
    (ho : ∀ i, oracle i = .error (msg i)) (ht : ∀ i, isTimeout (msg i) = true) :
    ∀ k attempt, tryWithRetryGo oracle attempt (k + 1) =
      ⟨.ok none, (if 0 < attempt then [Ev.sleep 3000] else []) ++ fixedFailTrace attempt k⟩ := by
  intro k
  induction k with
  | zero =>
    intro attempt
    simp [tryWithRetryGo, ho attempt, ht attempt, fixedFailTrace]
  | succ k ih =>
    intro attempt
    have step := tryGo_retryStep oracle attempt k (msg attempt) (ho attempt) (ht attempt)
    rw [step, ih (attempt + 1)]
    simp [fixedFailTrace, Nat.succ_pos]

theorem countCalls_linearFailTrace :
    ∀ k attempt, countCalls (linearFailTrace attempt k) = k + 1 := by
  intro k
  induction k with
  | zero => intro attempt; simp [linearFailTrace, countCalls, isCallEv]
  | succ k ih =>
    intro attempt
    have h := ih (attempt + 1)
    simp [countCalls] at h
    simp [linearFailTrace, countCalls, isCallEv, List.countP_cons, h]

theorem countCalls_fixedFailTrace :
    ∀ k attempt, countCalls (fixedFailTrace attempt k) = k + 1 := by
  intro k
  induction k with
  | zero => intro attempt; simp [fixedFailTrace, countCalls, isCallEv]
  | succ k ih =>
    intro attempt
    have h := ih (attempt + 1)
    simp [countCalls] at h
    simp [fixedFailTrace, countCalls, isCallEv, List.countP_cons, h]

theorem countCalls_safeGo_le (oracle : Oracle α σ) :
    ∀ k attempt, countCalls (safePaidFetchGo oracle attempt k).trace ≤ k := by
  intro k
  induction k with
  | zero => intro attempt; simp [safePaidFetchGo, countCalls]
  | succ k ih =>
    intro attempt
    cases ho : oracle attempt with
    | ok r => simp [safePaidFetchGo, ho, countCalls, isCallEv]
    | error msg =>
      by_cases hc : 0 < k ∧ isRetryable msg = true
      · have := ih (attempt + 1)
        simp [safePaidFetchGo, ho, hc, countCalls, isCallEv, List.countP_cons] at this ⊢
        omega
      · simp [safePaidFetchGo, ho, hc, countCalls, isCallEv]

theorem countP_preSleep (attempt : Nat) :
    List.countP isCallEv (if 0 < attempt then [Ev.sleep 3000] else []) = 0 := by
  by_cases h : 0 < attempt <;> simp [h, isCallEv]

theorem countCalls_tryGo_le (oracle : Oracle α σ) :
    ∀ k attempt, countCalls (tryWithRetryGo oracle attempt k).trace ≤ k := by
  intro k
  induction k with
  | zero => intro attempt; simp [tryWithRetryGo, countCalls]
  | succ k ih =>
    intro attempt
    cases ho : oracle attempt with
    | ok r =>
      simp [tryWithRetryGo, ho, countCalls, isCallEv, countP_preSleep, List.countP_cons]
    | error msg =>
      by_cases hc : isTimeout msg = true ∧ 0 < k
      · have h := ih (attempt + 1)
        simp [countCalls] at h
        simp [tryWithRetryGo, ho, hc, countCalls, isCallEv, countP_preSleep, List.countP_cons]
        omega
      · by_cases h2 : isTimeout msg = true
        · have hk0 : ¬ 0 < k := fun hh => hc ⟨h2, hh⟩
          simp [tryWithRetryGo, ho, hc, h2, hk0, countCalls, isCallEv, countP_preSleep,
            List.countP_cons]
        · simp [tryWithRetryGo, ho, hc, h2, countCalls, isCallEv, countP_preSleep,
            List.countP_cons]

theorem tryWithRetry_trace_head (oracle : Oracle α σ) (retries : Nat) :
    ∃ tl, (tryWithRetry oracle retries).trace = .call 0 :: tl := by
  cases ho : oracle 0 with
  | ok r => exact ⟨[], by simp [tryWithRetry, tryWithRetryGo, ho]⟩
  | error msg =>
    by_cases h1 : isTimeout msg = true ∧ 0 < retries
    · exact ⟨(tryWithRetryGo oracle 1 retries).trace,
        by simp [tryWithRetry, tryWithRetryGo, ho, h1]⟩
    · by_cases h2 : isTimeout msg = true
      · have hk0 : ¬ 0 < retries := fun hh => h1 ⟨h2, hh⟩
        exact ⟨[], by simp [tryWithRetry, tryWithRetryGo, ho, h1, h2, hk0]⟩
      · exact ⟨[], by simp [tryWithRetry, tryWithRetryGo, ho, h1, h2]⟩

theorem safeGo_not_unreachable (oracle : Oracle α σ) :
    ∀ k attempt, isUnreachableErr (safePaidFetchGo oracle attempt (k + 1)).result = false := by
  intro k
  induction k with
  | zero =>
    intro attempt
    cases ho : oracle attempt with
    | ok r => simp [safePaidFetchGo, ho, isUnreachableErr]
    | error msg => simp [safePaidFetchGo, ho, isUnreachableErr]
  | succ k ih =>
    intro attempt
    cases ho : oracle attempt with
    | ok r => simp [safePaidFetchGo, ho, isUnreachableErr]
    | error msg =>
      by_cases hr : isRetryable msg = true
      · have step := safeGo_retryStep oracle attempt k msg ho hr
        show isUnreachableErr (safePaidFetchGo oracle attempt (k + 2)).result = false
        rw [step]
        exact ih (attempt + 1)
      · simp [safePaidFetchGo, ho, hr, isUnreachableErr]

theorem call_trace_eq (st : RunState) (oracle : Oracle α σ) :
    (call st oracle).trace =
      (if 0 < st.callCount then [Ev.sleep 5000] else []) ++ (safePaidFetch oracle 3).trace := by
  cases h : (safePaidFetch oracle 3).result <;> simp [call, h]

theorem call_callCount_eq (st : RunState) (oracle : Oracle α σ) :
    (call st oracle).state.callCount = st.callCount + 1 := by
  cases h : (safePaidFetch oracle 3).result <;> simp [call, h]

/-- C1: through either retry wrapper (`safePaidFetch` or `tryWithRetry`) and
for every `retries` value, an attempt that fails with an error classified
non-transient is propagated immediately with no further underlying calls; in
particular a non-transient failure of the first attempt yields exactly one
underlying `paidFetch` call. -/
theorem c1_nontransient_single_attempt (oracle : Oracle α σ) (retries : Nat) (msg : String)
    (h0 : oracle 0 = .error msg) :
    (isRetryable msg = false →
        safePaidFetch oracle retries = ⟨.error (.thrown msg), [.call 0]⟩) ∧
    (isTimeout msg = false →
        tryWithRetry oracle retries = ⟨.error msg, [.call 0]⟩) ∧
    (∀ attempt k m, oracle attempt = .error m → isRetryable m = false →
        safePaidFetchGo oracle attempt (k + 1) = ⟨.error (.thrown m), [.call attempt]⟩) ∧
    (∀ attempt k m, oracle attempt = .error m → isTimeout m = false →
        tryWithRetryGo oracle attempt (k + 1) =
          ⟨.error m, (if 0 < attempt then [Ev.sleep 3000] else []) ++ [.call attempt]⟩) := by
  refine ⟨?_, ?_, ?_, ?_⟩
  · intro hr
    simpa [safePaidFetch] using safeGo_nonretryable oracle 0 retries msg h0 hr
  · intro ht
    simpa [tryWithRetry] using tryGo_nontimeout oracle 0 retries msg h0 ht
  · intro attempt k m ho hr
    exact safeGo_nonretryable oracle attempt k m ho hr
  · intro attempt k m ho ht
    exact tryGo_nontimeout oracle attempt k m ho ht

theorem c1_witness :
    (safePaidFetch (fun _ => (Except.error "bad request (400)" :
          Except String (CallResult Unit Unit))) 3
        = ⟨.error (.thrown "bad request (400)"), [.call 0]⟩) ∧
    (tryWithRetry (fun _ => (Except.error "bad request (400)" :
          Except String (CallResult Unit Unit))) 3
        = ⟨.error "bad request (400)", [.call 0]⟩) := by
  have h := c1_nontransient_single_attempt
      (fun _ => (Except.error "bad request (400)" : Except String (CallResult Unit Unit))) 3
      "bad request (400)" rfl
  exact ⟨h.1 (by decide), h.2.1 (by decide)⟩

/-- C2: with `maxRetries = N` and every attempt failing with a
transient-classified error, each wrapper performs exactly `N` additional
attempts after the first (`N + 1` underlying calls, and never more than
`N + 1` for any oracle), each retry preceded by exactly one sleep with the
configured backoff at the correct attempt index: `(attempt + 1) * 5000` ms
linear escalation for `safePaidFetch`, fixed `3000` ms for `tryWithRetry`. -/
theorem c2_transient_backoff_schedule (oracle : Oracle α σ) (msg : Nat → String) (N : Nat)
    (ho : ∀ i, oracle i = .error (msg i)) :
    ((∀ i, isRetryable (msg i) = true) →
        safePaidFetch oracle N = ⟨.error (.thrown (msg N)), linearFailTrace 0 N⟩) ∧
    ((∀ i, isTimeout (msg i) = true) →
        tryWithRetry oracle N = ⟨.ok none, fixedFailTrace 0 N⟩) ∧
    countCalls (linearFailTrace 0 N) = N + 1 ∧
    countCalls (fixedFailTrace 0 N) = N + 1 ∧
    countCalls (safePaidFetch oracle N).trace ≤ N + 1 ∧
    countCalls (tryWithRetry oracle N).trace ≤ N + 1 := by
  refine ⟨?_, ?_, countCalls_linearFailTrace N 0, countCalls_fixedFailTrace N 0,
      countCalls_safeGo_le oracle (N + 1) 0, countCalls_tryGo_le oracle (N + 1) 0⟩
  · intro hr
    simpa [safePaidFetch] using safeGo_allFail oracle msg ho hr N 0
  · intro ht
    simpa [tryWithRetry] using tryGo_allFail oracle msg ho ht N 0

theorem c2_witness :
    safePaidFetch (fun _ => (Except.error "HTTP 503" : Except String (CallResult Unit Unit))) 3
      = ⟨.error (.thrown "HTTP 503"),
         [.call 0, .sleep 5000, .call 1, .sleep 10000, .call 2, .sleep 15000, .call 3]⟩ ∧
    tryWithRetry (fun _ => (Except.error "HTTP 503" : Except String (CallResult Unit Unit))) 3
      = ⟨.ok none, [.call 0, .sleep 3000, .call 1, .sleep 3000, .call 2, .sleep 3000, .call 3]⟩ := by
  have h := c2_transient_backoff_schedule
      (fun _ => (Except.error "HTTP 503" : Except String (CallResult Unit Unit)))
      (fun _ => "HTTP 503") 3 (fun _ => rfl)
  constructor
  · exact (h.1 (fun i => rfl)).trans (by rfl)
  · exact (h.2.1 (fun i => rfl)).trans (by rfl)

/-- C3 as frozen is false: the claim requires every retrying call site to
classify via the full signal set (504, 503, 500, 429 / "Too Many Requests"),
but `tryWithRetry` matches only 504/"timeout"/503, so a failure carrying the
rate-limit signal 429 is classified non-transient there and is not retried
(one underlying call, error rethrown) while `safePaidFetch` does classify the
same message transient. -/
theorem c3_counterexample :
    isRetryable "Payment failed (429): Too Many Requests" = true ∧
    isTimeout "Payment failed (429): Too Many Requests" = false ∧
    tryWithRetry (fun _ => (Except.error "Payment failed (429): Too Many Requests" :
          Except String (CallResult Unit Unit))) 1
      = ⟨.error "Payment failed (429): Too Many Requests", [.call 0]⟩ :=
  ⟨by decide, by decide, rfl⟩

/-- C3 amended: `safePaidFetch` sites classify transient exactly by the
signals 504, 500, 503, 429, "Too Many Requests"; the `tryWithRetry` site
classifies exactly by 504, "timeout", 503.  Each classification is a
substring match, and any failure whose message matches that site's signals is
retried there (another call, preceded by that site's backoff sleep) while
attempts remain. -/
theorem c3_amended_classification (msg : String) :
    isRetryable msg = matchesAny specSafeSignals msg ∧
    isTimeout msg = matchesAny specTrySignals msg ∧
    (∀ (oracle : Oracle α σ) attempt k,
        oracle attempt = .error msg → isRetryable msg = true →
        safePaidFetchGo oracle attempt (k + 2) =
          ⟨(safePaidFetchGo oracle (attempt + 1) (k + 1)).result,
           .call attempt :: .sleep ((attempt + 1) * 5000) ::
             (safePaidFetchGo oracle (attempt + 1) (k + 1)).trace⟩) ∧
    (∀ (oracle : Oracle α σ) attempt k,
        oracle attempt = .error msg → isTimeout msg = true →
        tryWithRetryGo oracle attempt (k + 2) =
          ⟨(tryWithRetryGo oracle (attempt + 1) (k + 1)).result,
           (if 0 < attempt then [Ev.sleep 3000] else []) ++
             .call attempt :: (tryWithRetryGo oracle (attempt + 1) (k + 1)).trace⟩) := by
  refine ⟨?_, ?_, ?_, ?_⟩
  · simp [isRetryable, matchesAny, specSafeSignals, Bool.or_assoc]
  · simp [isTimeout, matchesAny, specTrySignals, Bool.or_assoc]
  · intro oracle attempt k ho hr
    exact safeGo_retryStep oracle attempt k msg ho hr
  · intro oracle attempt k ho ht
    exact tryGo_retryStep oracle attempt k msg ho ht

theorem c3_amended_witness :
    isRetryable "error 500" = matchesAny specSafeSignals "error 500" ∧
    safePaidFetchGo (fun _ => (Except.error "error 500" :
          Except String (CallResult Unit Unit))) 0 2
      = ⟨(safePaidFetchGo (fun _ => (Except.error "error 500" :
            Except String (CallResult Unit Unit))) 1 1).result,
         .call 0 :: .sleep (1 * 5000) ::
           (safePaidFetchGo (fun _ => (Except.error "error 500" :
              Except String (CallResult Unit Unit))) 1 1).trace⟩ := by
  have h := c3_amended_classification (α := Unit) (σ := Unit) "error 500"
  exact ⟨h.1, h.2.2.1 (fun _ => Except.error "error 500") 0 0 rfl (by decide)⟩

/-- C4: the running cost total is increased by a call's price only when that
call's underlying fetch ultimately returned success; a call whose fetch ends
in an error leaves `totalCost` unchanged. -/
theorem c4_cost_only_on_success (st : RunState) (oracle : Oracle α σ) :
    (∀ e, (safePaidFetch oracle 3).result = .error e →
        (call st oracle).state.totalCost = st.totalCost) ∧
    (∀ (d : α) (p : ℚ), (safePaidFetch oracle 3).result = .ok (d, p) →
        (call st oracle).result = .ok d ∧
        (call st oracle).state.totalCost = st.totalCost + p) := by
  constructor
  · intro e he
    simp [call, he]
  · intro d p hdp
    simp [call, hdp]

theorem c4_witness :
    (call ⟨0, 0⟩ (fun _ => (Except.error "bad request" :
        Except String (CallResult Unit Unit)))).state.totalCost = 0 ∧
    (call ⟨0, 0⟩ (fun _ => (Except.ok ⟨(), (), 2⟩ :
        Except String (CallResult Unit Unit)))).state.totalCost = 0 + 2 := by
  constructor
  · exact (c4_cost_only_on_success ⟨0, 0⟩
      (fun _ => (Except.error "bad request" : Except String (CallResult Unit Unit)))).1
      (.thrown "bad request") rfl
  · exact ((c4_cost_only_on_success ⟨0, 0⟩
      (fun _ => (Except.ok ⟨(), (), 2⟩ : Except String (CallResult Unit Unit)))).2 () 2 rfl).2

/-- C5 as frozen is false: the call counter is not success-only.  A call whose
fetch fails non-transiently still increments `callCount` (from 0 to 1 here)
even though it adds nothing to `totalCost`. -/
theorem c5_counterexample :
    (call ⟨0, 0⟩ (fun _ => (Except.error "bad request" :
        Except String (CallResult Unit Unit)))).result = .error (.thrown "bad request") ∧
    (call ⟨0, 0⟩ (fun _ => (Except.error "bad request" :
        Except String (CallResult Unit Unit)))).state.callCount = 1 ∧
    (call ⟨0, 0⟩ (fun _ => (Except.error "bad request" :
        Except String (CallResult Unit Unit)))).state.totalCost = 0 :=
  ⟨rfl, rfl, rfl⟩

/-- C5 amended: `totalCost` is updated exactly once per call that ultimately
returns success and never for a failing call, but `callCount` is incremented
exactly once per `call` invocation — before the fetch — regardless of whether
the call succeeds or fails. -/
theorem c5_amended_accounting (st : RunState) (oracle : Oracle α σ) :
    (call st oracle).state.callCount = st.callCount + 1 ∧
    (∀ e, (safePaidFetch oracle 3).result = .error e →
        (call st oracle).state.totalCost = st.totalCost) ∧
    (∀ (d : α) (p : ℚ), (safePaidFetch oracle 3).result = .ok (d, p) →
        (call st oracle).state.totalCost = st.totalCost + p) := by
  refine ⟨call_callCount_eq st oracle, ?_, ?_⟩
  · intro e he
    simp [call, he]
  · intro d p hdp
    simp [call, hdp]

theorem c5_amended_witness :
    (call ⟨0, 0⟩ (fun _ => (Except.error "bad request" :
        Except String (CallResult Unit Unit)))).state.callCount = 0 + 1 ∧
    (call ⟨0, 0⟩ (fun _ => (Except.error "bad request" :
        Except String (CallResult Unit Unit)))).state.totalCost = 0 := by
  constructor
  · exact (c5_amended_accounting ⟨0, 0⟩
      (fun _ => (Except.error "bad request" : Except String (CallResult Unit Unit)))).1
  · exact (c5_amended_accounting ⟨0, 0⟩
      (fun _ => (Except.error "bad request" : Except String (CallResult Unit Unit)))).2.1
      (.thrown "bad request") rfl

/-- C6 as frozen is false: when the initial status is itself a transient code
(503 here), the `ProtocolError` message "Expected 402, got 503" contains the
"503" signal, is classified transient by `safePaidFetch`, and is retried — two
underlying calls with `maxRetries = 1`, not one. -/
theorem c6_counterexample :
    paidFetch (α := Unit) (σ := Unit) ⟨503, ""⟩ ⟨200, "ok"⟩ 1000 () ()
        = .error "Expected 402, got 503" ∧
    isRetryable "Expected 402, got 503" = true ∧
    safePaidFetch (fun _ => paidFetch (α := Unit) (σ := Unit) ⟨503, ""⟩ ⟨200, "ok"⟩ 1000 () ()) 1
        = ⟨.error (.thrown "Expected 402, got 503"), [.call 0, .sleep 5000, .call 1]⟩ ∧
    countCalls [Ev.call 0, Ev.sleep 5000, Ev.call 1] = 2 :=
  ⟨rfl, by decide, rfl, by decide⟩

/-- C6 amended: a `ProtocolError` (initial status ≠ 402) is propagated by both
wrappers after a single underlying call whenever its message matches no
transient signal (e.g. status 404); when the unexpected status itself carries
a transient code, the message matches the substring classifier and the error
is retried. -/
theorem c6_amended_protocol_error (status : Nat) (paid : HttpResp) (raw : Nat)
    (b : String) (d : α) (s : σ) (retries : Nat)
    (hne : status ≠ 402)
    (hr : isRetryable ("Expected 402, got " ++ toString status) = false)
    (ht : isTimeout ("Expected 402, got " ++ toString status) = false) :
    safePaidFetch (fun _ => paidFetch ⟨status, b⟩ paid raw d s) retries
      = ⟨.error (.thrown ("Expected 402, got " ++ toString status)), [.call 0]⟩ ∧
    tryWithRetry (fun _ => paidFetch ⟨status, b⟩ paid raw d s) retries
      = ⟨.error ("Expected 402, got " ++ toString status), [.call 0]⟩ := by
  have ho : (fun _ => paidFetch ⟨status, b⟩ paid raw d s) 0
      = Except.error ("Expected 402, got " ++ toString status) := by
    simp [paidFetch, hne]
  constructor
  · simpa [safePaidFetch] using
      safeGo_nonretryable (fun _ => paidFetch ⟨status, b⟩ paid raw d s) 0 retries _ ho hr
  · simpa [tryWithRetry] using
      tryGo_nontimeout (fun _ => paidFetch ⟨status, b⟩ paid raw d s) 0 retries _ ho ht

theorem c6_amended_witness :
    safePaidFetch (fun _ => paidFetch (α := Unit) (σ := Unit) ⟨404, ""⟩ ⟨200, "ok"⟩ 1000 () ()) 3
      = ⟨.error (.thrown "Expected 402, got 404"), [.call 0]⟩ ∧
    tryWithRetry (fun _ => paidFetch (α := Unit) (σ := Unit) ⟨404, ""⟩ ⟨200, "ok"⟩ 1000 () ()) 3
      = ⟨.error "Expected 402, got 404", [.call 0]⟩ := by
  have h := c6_amended_protocol_error (α := Unit) (σ := Unit) 404 ⟨200, "ok"⟩ 1000 "" () () 3
      (by decide) (by decide) (by decide)
  exact h

/-- C7: fallback routing tries the two plan entries in order and stops at the
first success; entry 2 runs only after entry 1 returned the `null` sentinel
(transient exhaustion); a thrown (non-transient) error from entry 1
propagates with entry 2 never attempted; and when both entries are exhausted
the overall result is the `null` sentinel, not an error. -/
theorem c7_fallback_routing (oracleP oracleF : Oracle α σ) :
    (∀ v, (tryWithRetry oracleP 1).result = .ok (some v) →
        (run oracleP oracleF).result = .ok (some v) ∧
        (run oracleP oracleF).endpointUsed = 0 ∧
        ∀ p ∈ (run oracleP oracleF).trace, p.1 = 0) ∧
    (∀ m, (tryWithRetry oracleP 1).result = .error m →
        (run oracleP oracleF).result = .error m ∧
        ∀ p ∈ (run oracleP oracleF).trace, p.1 = 0) ∧
    ((tryWithRetry oracleP 1).result = .ok none →
        (run oracleP oracleF).result = (tryWithRetry oracleF 1).result ∧
        (1, Ev.call 0) ∈ (run oracleP oracleF).trace) ∧
    ((tryWithRetry oracleP 1).result = .ok none →
        (tryWithRetry oracleF 1).result = .ok none →
        (run oracleP oracleF).result = .ok none) := by
  refine ⟨?_, ?_, ?_, ?_⟩
  · intro v hv
    refine ⟨by simp [run, hv], by simp [run, hv], ?_⟩
    intro p hp
    simp [run, hv, tagTrace] at hp
    obtain ⟨e, _, hpe⟩ := hp
    simp [← hpe]
  · intro m hm
    refine ⟨by simp [run, hm], ?_⟩
    intro p hp
    simp [run, hm, tagTrace] at hp
    obtain ⟨e, _, hpe⟩ := hp
    simp [← hpe]
  · intro hnone
    refine ⟨by simp [run, hnone], ?_⟩
    obtain ⟨tl, htl⟩ := tryWithRetry_trace_head oracleF 1
    simp [run, hnone, tagTrace, htl]
  · intro hnone hnone2
    simp [run, hnone, hnone2]

theorem c7_witness :
    (run (fun _ => (Except.error "HTTP 503" : Except String (CallResult Unit Unit)))
        (fun _ => Except.ok ⟨(), (), 1⟩)).result = .ok (some ⟨(), (), 1⟩) ∧
    (1, Ev.call 0) ∈ (run (fun _ => (Except.error "HTTP 503" :
        Except String (CallResult Unit Unit)))
        (fun _ => Except.ok ⟨(), (), 1⟩)).trace := by
  have h := (c7_fallback_routing
      (fun _ => (Except.error "HTTP 503" : Except String (CallResult Unit Unit)))
      (fun _ => Except.ok ⟨(), (), 1⟩)).2.2.1 rfl
  exact ⟨h.1.trans rfl, h.2⟩

/-- C8: in the throttled sequencer, the very first call (callCount = 0) has no
leading delay; every call issued with callCount > 0 is preceded by exactly one
fixed 5000 ms sleep before its request; and since every `call` — successful or
failed — increments the counter, any call following another call is throttled
unconditionally. -/
theorem c8_unconditional_throttle (st : RunState) (oracle : Oracle α σ) :
    (st.callCount = 0 → (call st oracle).trace = (safePaidFetch oracle 3).trace) ∧
    (0 < st.callCount →
        (call st oracle).trace = .sleep 5000 :: (safePaidFetch oracle 3).trace) ∧
    (call st oracle).state.callCount = st.callCount + 1 ∧
    (∀ oracle2 : Oracle α σ,
        (call (call st oracle).state oracle2).trace
          = .sleep 5000 :: (safePaidFetch oracle2 3).trace) := by
  refine ⟨?_, ?_, call_callCount_eq st oracle, ?_⟩
  · intro h0
    simp [call_trace_eq, h0]
  · intro hpos
    simp [call_trace_eq, hpos]
  · intro oracle2
    have hpos : 0 < (call st oracle).state.callCount := by
      rw [call_callCount_eq]
      omega
    simp [call_trace_eq, hpos]

theorem c8_witness :
    (call ⟨0, 0⟩ (fun _ => (Except.error "bad request" :
        Except String (CallResult Unit Unit)))).trace = [Ev.call 0] ∧
    (call (call ⟨0, 0⟩ (fun _ => (Except.error "bad request" :
          Except String (CallResult Unit Unit)))).state
        (fun _ => (Except.ok ⟨(), (), 1⟩ : Except String (CallResult Unit Unit)))).trace
      = [Ev.sleep 5000, Ev.call 0] := by
  have h := c8_unconditional_throttle (⟨0, 0⟩ : RunState)
      (fun _ => (Except.error "bad request" : Except String (CallResult Unit Unit)))
  constructor
  · exact (h.1 rfl).trans rfl
  · exact (h.2.2.2 (fun _ => Except.ok ⟨(), (), 1⟩)).trans rfl

/-- C9: the two-branch join isolates failures: each branch's error is caught
and replaced by `null`, so one branch failing while the other succeeds yields
the successful branch's value paired with a `none` marker, never an aborted
join. -/
theorem c9_join_isolation (a : Except String β) (b : Except String γ) :
    (∀ m v, a = .error m → b = .ok v → mainJoin a b = (none, some v)) ∧
    (∀ v m, a = .ok v → b = .error m → mainJoin a b = (some v, none)) ∧
    (∀ va vb, a = .ok va → b = .ok vb → mainJoin a b = (some va, some vb)) ∧
    (∀ ma mb, a = .error ma → b = .error mb → mainJoin a b = (none, none)) := by
  refine ⟨?_, ?_, ?_, ?_⟩ <;> intro x y hx hy <;> subst hx <;> subst hy <;> rfl

theorem c9_witness :
    mainJoin (Except.error "trades/whales error" : Except String Nat)
        (Except.ok (7 : Nat) : Except String Nat) = (none, some 7) ∧
    mainJoin (Except.ok (5 : Nat) : Except String Nat)
        (Except.error "signals error" : Except String Nat) = (some 5, none) := by
  constructor
  · exact (c9_join_isolation (Except.error "trades/whales error" : Except String Nat)
      (Except.ok (7 : Nat) : Except String Nat)).1 "trades/whales error" 7 rfl rfl
  · exact (c9_join_isolation (Except.ok (5 : Nat) : Except String Nat)
      (Except.error "signals error" : Except String Nat)).2.1 5 "signals error" rfl rfl

/-- C10: for every `retries` value the `safePaidFetch` loop terminates by
returning a result or rethrowing the caught error from inside the loop body;
the `throw new Error("unreachable")` after the loop never executes. -/
theorem c10_unreachable_dead (oracle : Oracle α σ) (retries : Nat) :
    isUnreachableErr (safePaidFetch oracle retries).result = false := by
  simpa [safePaidFetch] using safeGo_not_unreachable oracle retries 0

end X402
